import Mathlib

/-!
Shallow embedding of `src/webhook-service/index.js`: an Express service that
receives a FusionAuth user-registration webhook and provisions a private
Grafana folder for the user (lookup-or-create user, create folder, set folder
permissions).  Downstream HTTP responses are abstracted as an oracle (`Env`);
the handler is a pure function from the oracle and the request body to the
HTTP response together with the ordered trace of downstream calls it issued.
-/

namespace GrafanaWebhook

/-- The `event.user` object of the FusionAuth webhook payload
(`src/webhook-service/index.js:35`).  A JSON field that is absent is `none`. -/
structure FAUser where
  email : Option String
  firstName : Option String
  lastName : Option String
deriving DecidableEq

/-- The `event` object of the webhook payload (`index.js:29`). -/
structure Event where
  user : Option FAUser
deriving DecidableEq

/-- The parsed request body `req.body` of `POST /webhook/user-registered`. -/
structure ReqBody where
  event : Option Event
deriving DecidableEq

/-- A Grafana user as returned by `GET /api/users/lookup` and as rebuilt by
`createGrafanaUser` (`index.js:169`). -/
structure GrafanaUser where
  id : Nat
  email : String
  login : String
  name : String
deriving DecidableEq

/-- A Grafana folder as returned by `POST /api/folders` (`index.js:77`). -/
structure Folder where
  id : Nat
  uid : String
deriving DecidableEq

/-- The payload of `POST /api/admin/users` (`index.js:148`). -/
structure UserPayload where
  email : String
  login : String
  name : String
  password : String
  orgId : Nat
deriving DecidableEq

/-- The payload of `POST /api/folders` (`index.js:186`). -/
structure FolderPayload where
  title : String
deriving DecidableEq

/-- One entry of the permissions payload (`index.js:208`). -/
structure PermissionItem where
  userId : Nat
  permission : Nat
deriving DecidableEq

/-- The payload of `POST /api/folders/{uid}/permissions` (`index.js:206`). -/
structure PermissionsPayload where
  items : List PermissionItem
deriving DecidableEq

/-- One outbound HTTP call to the Grafana API, with the payload it carried. -/
inductive ApiCall where
  | lookupUser (email : String)
  | createUser (payload : UserPayload)
  | createFolder (payload : FolderPayload)
  | setPermissions (folderUid : String) (payload : PermissionsPayload)
deriving DecidableEq

/-- Outcome of one axios call: a 2xx response carrying data, an HTTP error
response (axios rejects with `error.response.status` set), or a network-level
failure (no response object). -/
inductive HttpResult (α : Type) where
  | ok (status : Nat) (data : α)
  | httpError (status : Nat) (msg : String)
  | networkError (msg : String)
deriving DecidableEq

/-- The downstream platform abstracted as response functions for the four
calls the service makes, plus the value `Math.random`-based password
generation produced for this request (`index.js:152`). -/
structure Env where
  lookupResp : String → HttpResult GrafanaUser
  createUserResp : UserPayload → HttpResult Nat
  createFolderResp : FolderPayload → HttpResult Folder
  setPermsResp : String → PermissionsPayload → HttpResult Unit
  randomPassword : String

/-- The JSON body of the 200 response (`index.js:97`). -/
structure SuccessBody where
  message : String
  folderName : String
  folderId : Nat
  folderUid : String
  userEmail : String
  userId : Nat
deriving DecidableEq

/-- The HTTP response of the webhook endpoint: 200 with the summary object,
400 with an error string, or 500 with the error details string. -/
inductive Response where
  | ok (body : SuccessBody)
  | badRequest (err : String)
  | serverError (details : String)
deriving DecidableEq

/-- JavaScript falsiness of the optional string `user.email` as tested by
`if (!userEmail)` (`index.js:38`): absent or the empty string. -/
def jsFalsy (s : Option String) : Bool :=
  s.getD "" == ""

/-- JavaScript `String.prototype.trim`: drop whitespace from both ends
(`index.js:151`). -/
def jsTrim (s : String) : String :=
  String.mk (((s.data.dropWhile Char.isWhitespace).reverse.dropWhile
    Char.isWhitespace).reverse)

/-- `getGrafanaUserByEmail` (`index.js:124`): a 2xx response yields the user,
a 404 yields `null` (modelled `none`), any other failure is rethrown. -/
def getGrafanaUserByEmail (resp : HttpResult GrafanaUser) :
    Except String (Option GrafanaUser) :=
  match resp with
  | .ok _ u => .ok (some u)
  | .httpError status m => if status = 404 then .ok none else .error m
  | .networkError m => .error m

/-- The `name` field of the user payload (`index.js:151`):
```${firstName || ''} ${lastName || ''}`.trim() || userFromFA.email``. -/
def grafanaUserName (u : FAUser) : String :=
  if jsTrim ((u.firstName.getD "") ++ " " ++ (u.lastName.getD "")) = "" then
    u.email.getD ""
  else
    jsTrim ((u.firstName.getD "") ++ " " ++ (u.lastName.getD ""))

/-- The payload `createGrafanaUser` sends to `POST /api/admin/users`
(`index.js:148`): email and login are the webhook email, the name is derived
from first/last name, the password is the random one, `OrgId` is 1. -/
def userPayloadFor (u : FAUser) (password : String) : UserPayload :=
  { email := u.email.getD ""
  , login := u.email.getD ""
  , name := grafanaUserName u
  , password := password
  , orgId := 1 }

/-- `createGrafanaUser` (`index.js:146`): send the payload; on success return
the created user rebuilt from the response id and the payload fields
(`index.js:169`); on failure rethrow. -/
def createGrafanaUser (env : Env) (userFromFA : FAUser) :
    Except String GrafanaUser :=
  let userPayload := userPayloadFor userFromFA env.randomPassword
  match env.createUserResp userPayload with
  | .ok _ newId =>
      .ok ⟨newId, userPayload.email, userPayload.login, userPayload.name⟩
  | .httpError _ m => .error m
  | .networkError m => .error m

/-- `createGrafanaFolder` (`index.js:182`): post `{title}`; on success return
the response data; on failure rethrow. -/
def createGrafanaFolder (env : Env) (title : String) : Except String Folder :=
  match env.createFolderResp ⟨title⟩ with
  | .ok _ f => .ok f
  | .httpError _ m => .error m
  | .networkError m => .error m

/-- The permissions payload (`index.js:206`): the fixed admin principal
(user id 1) and the folder owner, both at permission 4 (admin). -/
def permissionsPayloadFor (userId : Nat) : PermissionsPayload :=
  ⟨[⟨1, 4⟩, ⟨userId, 4⟩]⟩

/-- `setFolderPermissions` (`index.js:203`): post the permissions payload to
`/api/folders/{folderUid}/permissions`; on failure rethrow. -/
def setFolderPermissions (env : Env) (folderUid : String) (userId : Nat) :
    Except String Unit :=
  match env.setPermsResp folderUid (permissionsPayloadFor userId) with
  | .ok _ _ => .ok ()
  | .httpError _ m => .error m
  | .networkError m => .error m

/-- The folder title `` `${userEmail}'s Dashboards` `` (`index.js:68`). -/
def titleFor (email : String) : String :=
  email ++ "'s Dashboards"

/-- Step 1 of the handler (`index.js:50`): look the user up; on `null`
(404) create the user; an exception in either call propagates.  Returns the
outcome together with the calls issued. -/
def resolveUserStep (env : Env) (user : FAUser) (email : String) :
    Except String GrafanaUser × List ApiCall :=
  match getGrafanaUserByEmail (env.lookupResp email) with
  | .error m => (.error m, [.lookupUser email])
  | .ok (some gu) => (.ok gu, [.lookupUser email])
  | .ok none =>
      match createGrafanaUser env user with
      | .error m =>
          (.error m,
           [.lookupUser email, .createUser (userPayloadFor user env.randomPassword)])
      | .ok gu =>
          (.ok gu,
           [.lookupUser email, .createUser (userPayloadFor user env.randomPassword)])

/-- The 200 response body (`index.js:97`). -/
def successBodyFor (email : String) (userId : Nat) (folder : Folder) :
    SuccessBody :=
  { message := "Private folder created successfully"
  , folderName := titleFor email
  , folderId := folder.id
  , folderUid := folder.uid
  , userEmail := email
  , userId := userId }

/-- Steps 2 and 3 of the handler (`index.js:67`): create the folder, then
set its permissions; an exception in either call yields the 500 response. -/
def provisionStep (env : Env) (email : String) (gu : GrafanaUser)
    (t1 : List ApiCall) : Response × List ApiCall :=
  match createGrafanaFolder env (titleFor email) with
  | .error m => (.serverError m, t1 ++ [.createFolder ⟨titleFor email⟩])
  | .ok folder =>
      match setFolderPermissions env folder.uid gu.id with
      | .error m =>
          (.serverError m,
           t1 ++ [.createFolder ⟨titleFor email⟩,
                  .setPermissions folder.uid (permissionsPayloadFor gu.id)])
      | .ok _ =>
          (.ok (successBodyFor email gu.id folder),
           t1 ++ [.createFolder ⟨titleFor email⟩,
                  .setPermissions folder.uid (permissionsPayloadFor gu.id)])

/-- The `POST /webhook/user-registered` handler (`index.js:21`): validate the
payload (400 on a missing `event`/`event.user`, 400 on a falsy email), then
run the three downstream steps; any exception is caught by the `catch` block
and turned into the 500 response (`index.js:119`). -/
def handleUserRegistered (env : Env) (body : ReqBody) :
    Response × List ApiCall :=
  match body.event with
  | none => (.badRequest "Invalid webhook payload", [])
  | some ev =>
      match ev.user with
      | none => (.badRequest "Invalid webhook payload", [])
      | some user =>
          if jsFalsy user.email then
            (.badRequest "User email is required", [])
          else
            match resolveUserStep env user (user.email.getD "") with
            | (.error m, t1) => (.serverError m, t1)
            | (.ok gu, t1) => provisionStep env (user.email.getD "") gu t1

/-- A resolved credential for the downstream platform: a bearer token or a
basic-auth pair (the source hard-codes the basic pair, `index.js:128`). -/
inductive Credential where
  | bearer (token : String)
  | basic (username password : String)
deriving DecidableEq

/-- The deployment's credential mode: bearer-token mode carries the optional
environment token and the optional on-disk token-file contents; basic mode
carries the fixed username/password pair. -/
inductive CredentialMode where
  | bearerMode (envToken : Option String) (fileToken : Option String)
  | basicMode (username password : String)
deriving DecidableEq

/-- A token is usable when it is present and non-empty. -/
def usableToken : Option String → Option String
  | none => none
  | some t => if t = "" then none else some t

/-- Modelled from the spec: credential resolution at startup.  The source
under `src/` contains only the basic-auth variant (its `TOKEN_FILE` constant,
`index.js:8`, is declared but never read); the bearer-token variant reads the
token from the environment, falling back to the shared on-disk token file. -/
def resolveCredential : CredentialMode → Option Credential
  | .bearerMode envToken fileToken =>
      match usableToken envToken with
      | some t => some (.bearer t)
      | none =>
          match usableToken fileToken with
          | some t => some (.bearer t)
          | none => none
  | .basicMode u p => some (.basic u p)

/-- What the process does at startup. -/
inductive StartupAction where
  | exitProcess
  | listen
deriving DecidableEq

/-- Modelled from the spec: bearer-token mode exits the process immediately
when no usable credential can be resolved; otherwise (and always in
basic-auth mode, the variant in `src/`, `index.js:243`) the server starts
listening. -/
def startupAction (m : CredentialMode) : StartupAction :=
  match resolveCredential m with
  | none => .exitProcess
  | some _ => .listen

/-! ## Concrete inputs used by the witnesses -/

/-- A concrete webhook user. -/
def userA : FAUser :=
  { email := some "user@example.com", firstName := some "Ada", lastName := some "L" }

/-- The concrete Grafana user with id 7 used by the success-path witnesses. -/
def grafanaUser7 : GrafanaUser :=
  { id := 7, email := "user@example.com", login := "user@example.com", name := "User" }

/-- The concrete folder with id 42 and uid abc123. -/
def folder42 : Folder := { id := 42, uid := "abc123" }

/-- An oracle on which every downstream call succeeds and lookup finds
user 7. -/
def envFound : Env :=
  { lookupResp := fun _ => .ok 200 grafanaUser7
  , createUserResp := fun _ => .ok 200 9
  , createFolderResp := fun _ => .ok 200 folder42
  , setPermsResp := fun _ _ => .ok 200 ()
  , randomPassword := "pw" }

/-- An oracle on which the user lookup returns 404 and every other call
succeeds. -/
def env404 : Env :=
  { lookupResp := fun _ => .httpError 404 "user not found"
  , createUserResp := fun _ => .ok 200 9
  , createFolderResp := fun _ => .ok 200 folder42
  , setPermsResp := fun _ _ => .ok 200 ()
  , randomPassword := "pw" }

/-- An oracle on which folder creation fails with a 500. -/
def envFolderFail : Env :=
  { lookupResp := fun _ => .ok 200 grafanaUser7
  , createUserResp := fun _ => .ok 200 9
  , createFolderResp := fun _ => .httpError 500 "boom"
  , setPermsResp := fun _ _ => .ok 200 ()
  , randomPassword := "pw" }

/-- An oracle on which setting permissions fails with a 403. -/
def envPermFail : Env :=
  { lookupResp := fun _ => .ok 200 grafanaUser7
  , createUserResp := fun _ => .ok 200 9
  , createFolderResp := fun _ => .ok 200 folder42
  , setPermsResp := fun _ _ => .httpError 403 "denied"
  , randomPassword := "pw" }

/-! ## Theorems -/

/-- C3: a payload missing `event` or `event.user` is answered with 400
"Invalid webhook payload" and no downstream call is made. -/
theorem invalid_payload_rejected (env : Env) (body : ReqBody)
    (h : body.event = none ∨ ∃ ev, body.event = some ev ∧ ev.user = none) :
    handleUserRegistered env body = (.badRequest "Invalid webhook payload", []) := by
  rcases h with h | ⟨ev, hev, hu⟩
  · simp [handleUserRegistered, h]
  · simp [handleUserRegistered, hev, hu]

/-- Witness for C3 at the concrete body `{}` (no `event`). -/
theorem invalid_payload_rejected_witness :
    handleUserRegistered envFound ⟨none⟩ =
      (.badRequest "Invalid webhook payload", []) :=
  invalid_payload_rejected envFound ⟨none⟩ (Or.inl rfl)

/-- C7: a payload with `event.user` present but with a missing or empty
email is answered with 400 "User email is required" and no downstream call
is made. -/
theorem missing_email_rejected (env : Env) (ev : Event) (user : FAUser)
    (hu : ev.user = some user)
    (he : user.email = none ∨ user.email = some "") :
    handleUserRegistered env ⟨some ev⟩ =
      (.badRequest "User email is required", []) := by
  rcases he with he | he <;> simp [handleUserRegistered, hu, he, jsFalsy]

/-- Witness for C7 at a concrete user with no email field. -/
theorem missing_email_rejected_witness :
    handleUserRegistered envFound ⟨some ⟨some ⟨none, none, none⟩⟩⟩ =
      (.badRequest "User email is required", []) :=
  missing_email_rejected envFound ⟨some ⟨none, none, none⟩⟩ ⟨none, none, none⟩
    rfl (Or.inl rfl)

/-- C10: when `event.user` is missing (so `event.user.email` is missing as
well) the 400 error is "Invalid webhook payload", not "User email is
required": the `event.user` presence check runs first. -/
theorem validation_order_invalid_first (env : Env) (ev : Event)
    (hu : ev.user = none) :
    handleUserRegistered env ⟨some ev⟩ =
      (.badRequest "Invalid webhook payload", []) ∧
    Response.badRequest "Invalid webhook payload" ≠
      Response.badRequest "User email is required" := by
  refine ⟨by simp [handleUserRegistered, hu], by decide⟩

/-- Witness for C10 at the concrete body with an `event` but no user. -/
theorem validation_order_invalid_first_witness :
    handleUserRegistered envFound ⟨some ⟨none⟩⟩ =
      (.badRequest "Invalid webhook payload", []) ∧
    Response.badRequest "Invalid webhook payload" ≠
      Response.badRequest "User email is required" :=
  validation_order_invalid_first envFound ⟨none⟩ rfl

/-- C9: in bearer-token mode, when no usable credential can be resolved the
process exits immediately at startup; the exit happens only in bearer-token
mode and only for that reason; basic-auth mode always starts listening. -/
theorem startup_exit_without_credential :
    (∀ e f, resolveCredential (.bearerMode e f) = none →
      startupAction (.bearerMode e f) = .exitProcess) ∧
    (∀ m, startupAction m = .exitProcess →
      ∃ e f, m = .bearerMode e f ∧ resolveCredential m = none) ∧
    (∀ u p, startupAction (.basicMode u p) = .listen) := by
  refine ⟨fun e f h => by simp [startupAction, h], fun m h => ?_, fun u p => rfl⟩
  match m with
  | .bearerMode e f =>
      refine ⟨e, f, rfl, ?_⟩
      by_contra hne
      rcases Option.ne_none_iff_exists.mp hne with ⟨c, hc⟩
      simp [startupAction, ← hc] at h
  | .basicMode u p => simp [startupAction, resolveCredential] at h

/-- Witness for C9: with neither an environment token nor a token file the
process exits; with the fixed basic credentials it listens. -/
theorem startup_exit_without_credential_witness :
    startupAction (.bearerMode none none) = .exitProcess ∧
    startupAction (.basicMode "admin" "admin123") = .listen :=
  ⟨startup_exit_without_credential.1 none none rfl,
   startup_exit_without_credential.2.2 "admin" "admin123"⟩

/-- With a validated body (a present, non-empty email) the handler is the
sequential composition of the resolve step and the provisioning step. -/
lemma handle_validated (env : Env) (user : FAUser) (email : String)
    (he : user.email = some email) (hne : email ≠ "") :
    handleUserRegistered env ⟨some ⟨some user⟩⟩ =
      (match resolveUserStep env user email with
       | (.error m, t1) => (.serverError m, t1)
       | (.ok gu, t1) => provisionStep env email gu t1) := by
  have hfalsy : jsFalsy (some email) = false := by simp [jsFalsy, hne]
  simp [handleUserRegistered, he, hfalsy]

/-- The resolve step issues the lookup call, optionally followed by the
user-creation call, and nothing else. -/
lemma resolveUserStep_trace (env : Env) (user : FAUser) (email : String) :
    (resolveUserStep env user email).2 = [ApiCall.lookupUser email] ∨
    (resolveUserStep env user email).2 =
      [ApiCall.lookupUser email,
       ApiCall.createUser (userPayloadFor user env.randomPassword)] := by
  unfold resolveUserStep
  cases hg : getGrafanaUserByEmail (env.lookupResp email) with
  | error m => simp [hg]
  | ok og =>
      cases og with
      | none =>
          cases hc : createGrafanaUser env user with
          | error m => simp [hg, hc]
          | ok gu => simp [hg, hc]
      | some gu => simp [hg]

/-- Hypothesis form of `resolveUserStep_trace`. -/
lemma resolveUserStep_trace_eq (env : Env) (user : FAUser) (email : String)
    (r : Except String GrafanaUser) (t1 : List ApiCall)
    (h : resolveUserStep env user email = (r, t1)) :
    t1 = [ApiCall.lookupUser email] ∨
    t1 = [ApiCall.lookupUser email,
          ApiCall.createUser (userPayloadFor user env.randomPassword)] := by
  have h2 : (resolveUserStep env user email).2 = t1 := by rw [h]
  rcases resolveUserStep_trace env user email with ht | ht
  · left; rw [← h2, ht]
  · right; rw [← h2, ht]

/-- C1: on a request whose user resolution succeeds with user id `gu.id` and
whose folder creation succeeds with folder `folder`, the permissions call
references `folder.uid` and carries `gu.id`, and the 200 body echoes the
title derived from the email, the folder id and uid, and the user's email
and id. -/
theorem webhook_success_echo (env : Env) (user : FAUser) (email : String)
    (gu : GrafanaUser) (t1 : List ApiCall) (folder : Folder)
    (he : user.email = some email) (hne : email ≠ "")
    (hres : resolveUserStep env user email = (.ok gu, t1))
    (hfold : createGrafanaFolder env (titleFor email) = .ok folder)
    (hperm : setFolderPermissions env folder.uid gu.id = .ok ()) :
    handleUserRegistered env ⟨some ⟨some user⟩⟩ =
      (Response.ok
        { message := "Private folder created successfully"
        , folderName := titleFor email
        , folderId := folder.id
        , folderUid := folder.uid
        , userEmail := email
        , userId := gu.id }
       , t1 ++ [ApiCall.createFolder ⟨titleFor email⟩,
                ApiCall.setPermissions folder.uid (permissionsPayloadFor gu.id)]) ∧
    titleFor email = email ++ "'s Dashboards" ∧
    (permissionsPayloadFor gu.id).items = [⟨1, 4⟩, ⟨gu.id, 4⟩] := by
  refine ⟨?_, rfl, rfl⟩
  rw [handle_validated env user email he hne, hres]
  show provisionStep env email gu t1 = _
  unfold provisionStep
  simp only [hfold, hperm, successBodyFor]

/-- Witness for C1 on the all-successful oracle: user 7, folder 42/abc123. -/
theorem webhook_success_echo_witness :
    handleUserRegistered envFound ⟨some ⟨some userA⟩⟩ =
      (Response.ok
        { message := "Private folder created successfully"
        , folderName := titleFor "user@example.com"
        , folderId := folder42.id
        , folderUid := folder42.uid
        , userEmail := "user@example.com"
        , userId := grafanaUser7.id }
       , [ApiCall.lookupUser "user@example.com"] ++
         [ApiCall.createFolder ⟨titleFor "user@example.com"⟩,
          ApiCall.setPermissions folder42.uid (permissionsPayloadFor grafanaUser7.id)]) ∧
    titleFor "user@example.com" = "user@example.com" ++ "'s Dashboards" ∧
    (permissionsPayloadFor grafanaUser7.id).items =
      [⟨1, 4⟩, ⟨grafanaUser7.id, 4⟩] :=
  webhook_success_echo envFound userA "user@example.com" grafanaUser7
    [ApiCall.lookupUser "user@example.com"] folder42 rfl (by decide) rfl rfl rfl

/-- C4: when the folder-creation call fails, the response is the 500 error
and no permissions call is issued. -/
theorem folder_failure_no_permissions (env : Env) (user : FAUser)
    (email : String) (gu : GrafanaUser) (t1 : List ApiCall) (m : String)
    (he : user.email = some email) (hne : email ≠ "")
    (hres : resolveUserStep env user email = (.ok gu, t1))
    (hfold : createGrafanaFolder env (titleFor email) = .error m) :
    handleUserRegistered env ⟨some ⟨some user⟩⟩ =
      (.serverError m, t1 ++ [ApiCall.createFolder ⟨titleFor email⟩]) ∧
    ∀ uid pp, ApiCall.setPermissions uid pp ∉
      (handleUserRegistered env ⟨some ⟨some user⟩⟩).2 := by
  have h1 : handleUserRegistered env ⟨some ⟨some user⟩⟩ =
      (.serverError m, t1 ++ [ApiCall.createFolder ⟨titleFor email⟩]) := by
    rw [handle_validated env user email he hne, hres]
    show provisionStep env email gu t1 = _
    unfold provisionStep
    simp only [hfold]
  refine ⟨h1, fun uid pp hmem => ?_⟩
  rw [h1] at hmem
  have ht := resolveUserStep_trace_eq env user email (.ok gu) t1 hres
  rcases List.mem_append.mp hmem with hin | hin
  · rcases ht with ht | ht <;> rw [ht] at hin <;> simp at hin
  · simp at hin

/-- Witness for C4 on the oracle whose folder creation returns a 500. -/
theorem folder_failure_no_permissions_witness :
    handleUserRegistered envFolderFail ⟨some ⟨some userA⟩⟩ =
      (.serverError "boom",
       [ApiCall.lookupUser "user@example.com"] ++
       [ApiCall.createFolder ⟨titleFor "user@example.com"⟩]) ∧
    ∀ uid pp, ApiCall.setPermissions uid pp ∉
      (handleUserRegistered envFolderFail ⟨some ⟨some userA⟩⟩).2 :=
  folder_failure_no_permissions envFolderFail userA "user@example.com"
    grafanaUser7 [ApiCall.lookupUser "user@example.com"] "boom" rfl (by decide)
    rfl rfl

/-- C6: when folder creation succeeds but the permissions call fails, the
response is the 500 error, the folder-creation call stays in the trace with
no compensating call after it: the failed permissions call is the last call
issued, so the created folder is left in place, unrestricted. -/
theorem permissions_failure_no_cleanup (env : Env) (user : FAUser)
    (email : String) (gu : GrafanaUser) (t1 : List ApiCall) (folder : Folder)
    (m : String)
    (he : user.email = some email) (hne : email ≠ "")
    (hres : resolveUserStep env user email = (.ok gu, t1))
    (hfold : createGrafanaFolder env (titleFor email) = .ok folder)
    (hperm : setFolderPermissions env folder.uid gu.id = .error m) :
    handleUserRegistered env ⟨some ⟨some user⟩⟩ =
      (.serverError m,
       t1 ++ [ApiCall.createFolder ⟨titleFor email⟩,
              ApiCall.setPermissions folder.uid (permissionsPayloadFor gu.id)]) ∧
    ApiCall.createFolder ⟨titleFor email⟩ ∈
      (handleUserRegistered env ⟨some ⟨some user⟩⟩).2 ∧
    (handleUserRegistered env ⟨some ⟨some user⟩⟩).2.getLast? =
      some (ApiCall.setPermissions folder.uid (permissionsPayloadFor gu.id)) := by
  have h1 : handleUserRegistered env ⟨some ⟨some user⟩⟩ =
      (.serverError m,
       t1 ++ [ApiCall.createFolder ⟨titleFor email⟩,
              ApiCall.setPermissions folder.uid (permissionsPayloadFor gu.id)]) := by
    rw [handle_validated env user email he hne, hres]
    show provisionStep env email gu t1 = _
    unfold provisionStep
    simp only [hfold, hperm]
  refine ⟨h1, ?_, ?_⟩
  · rw [h1]
    simp
  · rw [h1]
    have : t1 ++ [ApiCall.createFolder ⟨titleFor email⟩,
        ApiCall.setPermissions folder.uid (permissionsPayloadFor gu.id)] =
        (t1 ++ [ApiCall.createFolder ⟨titleFor email⟩]) ++
        [ApiCall.setPermissions folder.uid (permissionsPayloadFor gu.id)] := by
      simp
    rw [this]
    simp

/-- Witness for C6 on the oracle whose permissions call returns a 403. -/
theorem permissions_failure_no_cleanup_witness :
    handleUserRegistered envPermFail ⟨some ⟨some userA⟩⟩ =
      (.serverError "denied",
       [ApiCall.lookupUser "user@example.com"] ++
       [ApiCall.createFolder ⟨titleFor "user@example.com"⟩,
        ApiCall.setPermissions folder42.uid (permissionsPayloadFor grafanaUser7.id)]) ∧
    ApiCall.createFolder ⟨titleFor "user@example.com"⟩ ∈
      (handleUserRegistered envPermFail ⟨some ⟨some userA⟩⟩).2 ∧
    (handleUserRegistered envPermFail ⟨some ⟨some userA⟩⟩).2.getLast? =
      some (ApiCall.setPermissions folder42.uid
        (permissionsPayloadFor grafanaUser7.id)) :=
  permissions_failure_no_cleanup envPermFail userA "user@example.com"
    grafanaUser7 [ApiCall.lookupUser "user@example.com"] folder42 "denied"
    rfl (by decide) rfl rfl rfl

/-- The provisioning step only appends calls to the trace it is given. -/
lemma provisionStep_trace (env : Env) (email : String) (gu : GrafanaUser)
    (t1 : List ApiCall) :
    ∃ rest, (provisionStep env email gu t1).2 = t1 ++ rest := by
  unfold provisionStep
  cases hf : createGrafanaFolder env (titleFor email) with
  | error m => exact ⟨[ApiCall.createFolder ⟨titleFor email⟩], by simp [hf]⟩
  | ok folder =>
      cases hp : setFolderPermissions env folder.uid gu.id with
      | error m =>
          exact ⟨[ApiCall.createFolder ⟨titleFor email⟩,
                  ApiCall.setPermissions folder.uid (permissionsPayloadFor gu.id)],
                 by simp [hf, hp]⟩
      | ok u =>
          exact ⟨[ApiCall.createFolder ⟨titleFor email⟩,
                  ApiCall.setPermissions folder.uid (permissionsPayloadFor gu.id)],
                 by simp [hf, hp]⟩

/-- Case analysis on a complete run of the handler: either the request was
rejected by validation with an empty trace, or the body carried a user with
a non-empty email and the run is the resolve step followed (on success) by
the provisioning step. -/
lemma handle_inv (env : Env) (body : ReqBody) (res : Response)
    (trace : List ApiCall)
    (h : handleUserRegistered env body = (res, trace)) :
    trace = [] ∨
    ∃ user email, body.event = some ⟨some user⟩ ∧ user.email = some email ∧
      email ≠ "" ∧
      ((∃ m t1, resolveUserStep env user email = (.error m, t1) ∧
          res = .serverError m ∧ trace = t1) ∨
       (∃ gu t1, resolveUserStep env user email = (.ok gu, t1) ∧
          (res, trace) = provisionStep env email gu t1)) := by
  obtain ⟨evOpt⟩ := body
  rcases evOpt with _ | ⟨userOpt⟩
  · simp [handleUserRegistered] at h
    exact Or.inl h.2
  rcases userOpt with _ | user
  · simp [handleUserRegistered] at h
    exact Or.inl h.2
  cases hf : jsFalsy user.email with
  | true =>
      simp [handleUserRegistered, hf] at h
      exact Or.inl h.2
  | false =>
      obtain ⟨email, he, hne⟩ : ∃ email, user.email = some email ∧ email ≠ "" := by
        cases hmail : user.email with
        | none => exfalso; rw [hmail] at hf; simp [jsFalsy] at hf
        | some s =>
            refine ⟨s, rfl, fun hs => ?_⟩
            rw [hmail, hs] at hf
            simp [jsFalsy] at hf
      have hget : user.email.getD "" = email := by rw [he]; rfl
      right
      cases hr : resolveUserStep env user email with
      | mk r t1 =>
          cases r with
          | error m =>
              refine ⟨user, email, rfl, he, hne, Or.inl ⟨m, t1, hr, ?_, ?_⟩⟩
              · simp [handleUserRegistered, hf, hget, hr] at h
                exact h.1.symm
              · simp [handleUserRegistered, hf, hget, hr] at h
                exact h.2.symm
          | ok gu =>
              refine ⟨user, email, rfl, he, hne, Or.inr ⟨gu, t1, hr, ?_⟩⟩
              simp [handleUserRegistered, hf, hget, hr] at h
              exact h.symm

/-- C2: a 404 from the user lookup is "user not found", not an error; on a
404 the handler proceeds to create the user on the platform; and in every
execution any folder-creation call comes only after the resolve step
succeeded, whose calls include no folder creation. -/
theorem lookup404_creates_user (env : Env) :
    (∀ m, getGrafanaUserByEmail (.httpError 404 m) = .ok none) ∧
    (∀ user email m, user.email = some email → email ≠ "" →
      env.lookupResp email = .httpError 404 m →
      ∃ rest, (handleUserRegistered env ⟨some ⟨some user⟩⟩).2 =
        [ApiCall.lookupUser email,
         ApiCall.createUser (userPayloadFor user env.randomPassword)] ++ rest) ∧
    (∀ body res trace p, handleUserRegistered env body = (res, trace) →
      ApiCall.createFolder p ∈ trace →
      ∃ user email gu t1 rest, body.event = some ⟨some user⟩ ∧
        user.email = some email ∧
        resolveUserStep env user email = (.ok gu, t1) ∧
        trace = t1 ++ rest ∧ ∀ q, ApiCall.createFolder q ∉ t1) := by
  refine ⟨fun m => rfl, fun user email m he hne hl => ?_, ?_⟩
  · rw [handle_validated env user email he hne]
    have hg : getGrafanaUserByEmail (env.lookupResp email) = .ok none := by
      rw [hl]; rfl
    have hrs : ∃ r, resolveUserStep env user email =
        (r, [ApiCall.lookupUser email,
             ApiCall.createUser (userPayloadFor user env.randomPassword)]) := by
      cases hc : createGrafanaUser env user with
      | error m2 => exact ⟨.error m2, by unfold resolveUserStep; simp [hg, hc]⟩
      | ok gu => exact ⟨.ok gu, by unfold resolveUserStep; simp [hg, hc]⟩
    obtain ⟨r, hr⟩ := hrs
    rw [hr]
    cases r with
    | error m2 => exact ⟨[], by simp⟩
    | ok gu =>
        obtain ⟨rest, hrest⟩ := provisionStep_trace env email gu
          [ApiCall.lookupUser email,
           ApiCall.createUser (userPayloadFor user env.randomPassword)]
        exact ⟨rest, hrest⟩
  · intro body res trace p h hp
    rcases handle_inv env body res trace h with htr | ⟨user, email, hb, he, hne, hcase⟩
    · rw [htr] at hp; simp at hp
    · rcases hcase with ⟨m, t1, hr, hres2, htr⟩ | ⟨gu, t1, hr, hpt⟩
      · subst htr
        rcases resolveUserStep_trace_eq env user email _ trace hr with ht | ht <;>
          (rw [ht] at hp; simp at hp)
      · obtain ⟨rest, hrest⟩ := provisionStep_trace env email gu t1
        have htr : trace = t1 ++ rest := by
          have h2 : (provisionStep env email gu t1).2 = trace := by rw [← hpt]
          rw [← h2, hrest]
        refine ⟨user, email, gu, t1, rest, hb, he, hr, htr, fun q hq => ?_⟩
        rcases resolveUserStep_trace_eq env user email _ t1 hr with ht | ht <;>
          (rw [ht] at hq; simp at hq)

/-- Witness for C2 on the oracle whose lookup returns 404: the trace starts
with the lookup call followed by the user-creation call. -/
theorem lookup404_creates_user_witness :
    ∃ rest, (handleUserRegistered env404 ⟨some ⟨some userA⟩⟩).2 =
      [ApiCall.lookupUser "user@example.com",
       ApiCall.createUser (userPayloadFor userA env404.randomPassword)] ++ rest :=
  (lookup404_creates_user env404).2.1 userA "user@example.com" "user not found"
    rfl (by decide) rfl

/-- Any permissions call the provisioning step emits beyond the trace it was
given carries exactly the payload for the resolved user. -/
lemma provisionStep_setPerms (env : Env) (email : String) (gu : GrafanaUser)
    (t1 : List ApiCall) (uid : String) (pp : PermissionsPayload)
    (hnot : ∀ u q, ApiCall.setPermissions u q ∉ t1)
    (hmem : ApiCall.setPermissions uid pp ∈ (provisionStep env email gu t1).2) :
    pp = permissionsPayloadFor gu.id := by
  unfold provisionStep at hmem
  cases hf : createGrafanaFolder env (titleFor email) with
  | error m =>
      simp only [hf] at hmem
      rcases List.mem_append.mp hmem with hin | hin
      · exact absurd hin (hnot uid pp)
      · simp at hin
  | ok folder =>
      cases hp : setFolderPermissions env folder.uid gu.id with
      | error m =>
          simp only [hf, hp] at hmem
          rcases List.mem_append.mp hmem with hin | hin
          · exact absurd hin (hnot uid pp)
          · simp at hin
            exact hin.2
      | ok u =>
          simp only [hf, hp] at hmem
          rcases List.mem_append.mp hmem with hin | hin
          · exact absurd hin (hnot uid pp)
          · simp at hin
            exact hin.2

/-- The provisioning step emits no user-creation call of its own. -/
lemma provisionStep_createUser_mem (env : Env) (email : String)
    (gu : GrafanaUser) (t1 : List ApiCall) (up : UserPayload)
    (hmem : ApiCall.createUser up ∈ (provisionStep env email gu t1).2) :
    ApiCall.createUser up ∈ t1 := by
  unfold provisionStep at hmem
  cases hf : createGrafanaFolder env (titleFor email) with
  | error m =>
      simp only [hf] at hmem
      rcases List.mem_append.mp hmem with hin | hin
      · exact hin
      · simp at hin
  | ok folder =>
      cases hp : setFolderPermissions env folder.uid gu.id with
      | error m =>
          simp only [hf, hp] at hmem
          rcases List.mem_append.mp hmem with hin | hin
          · exact hin
          · simp at hin
      | ok u =>
          simp only [hf, hp] at hmem
          rcases List.mem_append.mp hmem with hin | hin
          · exact hin
          · simp at hin

/-- C5: every permissions payload sent downstream carries exactly the fixed
admin principal (user id 1) and the resolved target user, both at the
highest permission level (4), the target being the user the resolve step
returned for the request's email. -/
theorem permissions_payload_exact (env : Env) (body : ReqBody)
    (res : Response) (trace : List ApiCall) (uid : String)
    (pp : PermissionsPayload)
    (h : handleUserRegistered env body = (res, trace))
    (hmem : ApiCall.setPermissions uid pp ∈ trace) :
    ∃ user email gu t1, body.event = some ⟨some user⟩ ∧
      user.email = some email ∧
      resolveUserStep env user email = (.ok gu, t1) ∧
      pp = permissionsPayloadFor gu.id ∧
      pp.items = [⟨1, 4⟩, ⟨gu.id, 4⟩] := by
  rcases handle_inv env body res trace h with htr | ⟨user, email, hb, he, hne, hcase⟩
  · rw [htr] at hmem; simp at hmem
  · have hnot : ∀ r t1, resolveUserStep env user email = (r, t1) →
        ∀ u q, ApiCall.setPermissions u q ∉ t1 := by
      intro r t1 hr u q hq
      rcases resolveUserStep_trace_eq env user email r t1 hr with ht | ht <;>
        (rw [ht] at hq; simp at hq)
    rcases hcase with ⟨m, t1, hr, hres2, htr⟩ | ⟨gu, t1, hr, hpt⟩
    · subst htr
      exact absurd hmem (hnot _ trace hr uid pp)
    · have hmem2 : ApiCall.setPermissions uid pp ∈ (provisionStep env email gu t1).2 := by
        have h2 : (provisionStep env email gu t1).2 = trace := by rw [← hpt]
        rw [h2]
        exact hmem
      have hpp := provisionStep_setPerms env email gu t1 uid pp
        (hnot _ t1 hr) hmem2
      exact ⟨user, email, gu, t1, hb, he, hr, hpp, by rw [hpp]; rfl⟩

/-- Witness for C5 on the all-successful oracle: the permissions payload of
the emitted call is exactly admin (id 1) and user 7, both at level 4. -/
theorem permissions_payload_exact_witness :
    ∃ user email gu t1,
      (⟨some ⟨some userA⟩⟩ : ReqBody).event = some ⟨some user⟩ ∧
      user.email = some email ∧
      resolveUserStep envFound user email = (.ok gu, t1) ∧
      permissionsPayloadFor 7 = permissionsPayloadFor gu.id ∧
      (permissionsPayloadFor 7).items = [⟨1, 4⟩, ⟨gu.id, 4⟩] :=
  permissions_payload_exact envFound ⟨some ⟨some userA⟩⟩
    (handleUserRegistered envFound ⟨some ⟨some userA⟩⟩).1
    (handleUserRegistered envFound ⟨some ⟨some userA⟩⟩).2
    "abc123" (permissionsPayloadFor 7) rfl (by decide)

/-- C8 counterexample: for a user whose firstName is the one-space string
" " (neither absent nor empty) and whose lastName is absent, the trimmed
concatenation of the names is empty, yet the payload's name is the email —
so the name is not the trimmed concatenation although the claim's fallback
condition (both names absent or empty) does not hold. -/
theorem user_name_claim_counterexample :
    (userPayloadFor ⟨some "user@example.com", some " ", none⟩ "pw").name =
      "user@example.com" ∧
    jsTrim ((" " : String) ++ " " ++ "") = "" ∧
    "user@example.com" ≠ jsTrim ((" " : String) ++ " " ++ "") ∧
    ¬((some " " : Option String) = none ∨ (some " " : Option String) = some "") := by
  refine ⟨rfl, rfl, by decide, by decide⟩

/-- C8 (amended): every user-creation payload sent downstream has email and
login equal to the webhook user's email, org id 1, the request's random
password, and a name equal to the trimmed concatenation of firstName and
lastName, falling back to the email whenever that trimmed concatenation is
empty (in particular when both names are absent or empty). -/
theorem user_creation_payload_fields (env : Env) (body : ReqBody)
    (res : Response) (trace : List ApiCall) (up : UserPayload)
    (h : handleUserRegistered env body = (res, trace))
    (hmem : ApiCall.createUser up ∈ trace) :
    ∃ user email, body.event = some ⟨some user⟩ ∧ user.email = some email ∧
      email ≠ "" ∧
      up = userPayloadFor user env.randomPassword ∧
      up.email = email ∧ up.login = email ∧ up.orgId = 1 ∧
      up.password = env.randomPassword ∧
      up.name =
        (if jsTrim ((user.firstName.getD "") ++ " " ++ (user.lastName.getD "")) = ""
         then email
         else jsTrim ((user.firstName.getD "") ++ " " ++ (user.lastName.getD ""))) := by
  rcases handle_inv env body res trace h with htr | ⟨user, email, hb, he, hne, hcase⟩
  · rw [htr] at hmem; simp at hmem
  · have key : ∀ r t1, resolveUserStep env user email = (r, t1) →
        ApiCall.createUser up ∈ t1 →
        up = userPayloadFor user env.randomPassword := by
      intro r t1 hr hin
      rcases resolveUserStep_trace_eq env user email r t1 hr with ht | ht <;>
        rw [ht] at hin <;> simp at hin
      exact hin
    have hup : up = userPayloadFor user env.randomPassword := by
      rcases hcase with ⟨m, t1, hr, hres2, htr⟩ | ⟨gu, t1, hr, hpt⟩
      · subst htr
        exact key _ trace hr hmem
      · have hmem2 : ApiCall.createUser up ∈ (provisionStep env email gu t1).2 := by
          have h2 : (provisionStep env email gu t1).2 = trace := by rw [← hpt]
          rw [h2]
          exact hmem
        exact key _ t1 hr (provisionStep_createUser_mem env email gu t1 up hmem2)
    refine ⟨user, email, hb, he, hne, hup, ?_, ?_, ?_, ?_, ?_⟩ <;>
      simp [hup, userPayloadFor, grafanaUserName, he]

/-- Witness for C8 on the oracle whose lookup returns 404, which makes the
handler send the user-creation payload for the concrete webhook user. -/
theorem user_creation_payload_fields_witness :
    ∃ user email,
      (⟨some ⟨some userA⟩⟩ : ReqBody).event = some ⟨some user⟩ ∧
      user.email = some email ∧ email ≠ "" ∧
      userPayloadFor userA env404.randomPassword =
        userPayloadFor user env404.randomPassword ∧
      (userPayloadFor userA env404.randomPassword).email = email ∧
      (userPayloadFor userA env404.randomPassword).login = email ∧
      (userPayloadFor userA env404.randomPassword).orgId = 1 ∧
      (userPayloadFor userA env404.randomPassword).password =
        env404.randomPassword ∧
      (userPayloadFor userA env404.randomPassword).name =
        (if jsTrim ((user.firstName.getD "") ++ " " ++ (user.lastName.getD "")) = ""
         then email
         else jsTrim ((user.firstName.getD "") ++ " " ++ (user.lastName.getD ""))) :=
  user_creation_payload_fields env404 ⟨some ⟨some userA⟩⟩
    (handleUserRegistered env404 ⟨some ⟨some userA⟩⟩).1
    (handleUserRegistered env404 ⟨some ⟨some userA⟩⟩).2
    (userPayloadFor userA env404.randomPassword) rfl (by decide)

end GrafanaWebhook
